import Mathlib

/-!
Verification of the clack instance-lifecycle and audio-processing state machines.

The development shallowly embeds the host-side audio processor state machine
(host/src/process.rs), the host-side instance lifecycle (host/src/plugin/instance.rs)
and the plugin-side dispatch wrapper (plugin/src/extensions/wrapper.rs).

Conventions of the embedding:
- Foreign (FFI) functions of the plugin function table are modelled by a record of
  optional values: a field of type Option describes whether the entry is present in the
  table, and when present, the value the foreign call returns. Foreign calls made during
  an operation are recorded in a trace, a List of FCall events.
- Operations that can reach a panicking branch in the source (panic! or unreachable!)
  return an Option of their outcome; the value none models the panic. Operations that
  cannot panic return their outcome directly, or always return some.
- A state-mutating operation on a value returns a triple of its Result, the state the
  value is left in afterwards, and the trace of calls made.
-/

namespace Clack

/-- An observable event during an operation: one of the foreign function-table calls,
or the internal teardown of the ProcessingThread facet by a teardown closure. -/
inductive FCall
  | activate
  | deactivate
  | startProcessing
  | stopProcessing
  | process
  | destroy
  | facetTeardown
deriving DecidableEq

/-- Host-facing error taxonomy. The listed variants are exactly those referenced by the
given sources; AlreadyActivatedPlugin is modelled from the spec (activation requires the
instance to not already be active). -/
inductive HostError
  | ProcessingStopped
  | ProcessingStarted
  | StartProcessingFailed
  | NullProcessFunction
  | ProcessingFailed
  | MissingPluginFactory
  | InstantiationFailed
  | NullActivateFunction
  | ActivationFailed
  | DeactivatedPlugin
  | AlreadyActivatedPlugin
deriving DecidableEq

/-- Model of the foreign clap_plugin function table. An Option field encodes presence of
the optional table entry, together with the value the foreign function returns when
called; a Bool field encodes presence of an entry returning no value. -/
structure RawPlugin where
  activate : Option Bool
  deactivate : Bool
  start_processing : Option Bool
  stop_processing : Bool
  process : Option Int
  destroy : Bool
deriving DecidableEq

/-- PluginInstanceInner::start_processing (instance.rs lines 146 to 156): if the foreign
start_processing entry is present it is called, success giving Ok and failure giving
StartProcessingFailed; an absent entry is automatic success with no call. -/
def RawPlugin.startProcessingCall (p : RawPlugin) : Except HostError Unit × List FCall :=
  match p.start_processing with
  | some ret =>
      (if ret then Except.ok () else Except.error HostError.StartProcessingFailed,
        [FCall.startProcessing])
  | none => (Except.ok (), [])

/-- PluginInstanceInner::stop_processing (instance.rs lines 161 to 165): calls the
foreign stop_processing entry when present, and does nothing otherwise. -/
def RawPlugin.stopProcessingCall (p : RawPlugin) : List FCall :=
  if p.stop_processing then [FCall.stopProcessing] else []

/-- Modelled from the spec: the process status is a small closed enumeration
(continue, continue-if-not-quiet, sleep-until-next-event, error); the enumeration itself
lives in clack_common, outside the provided sources. -/
inductive ProcessStatus
  | Continue
  | ContinueIfNotQuiet
  | Sleep
deriving DecidableEq

/-- Modelled from the spec: ProcessStatus::from_raw (clack_common, outside the provided
sources) decodes a raw status code; the error code decodes to an inner error and an
unrecognized code decodes to none. Both are mapped to ProcessingFailed by process. -/
def ProcessStatus.from_raw : Int → Option (Except Unit ProcessStatus)
  | 0 => some (Except.error ())
  | 1 => some (Except.ok ProcessStatus.Continue)
  | 2 => some (Except.ok ProcessStatus.ContinueIfNotQuiet)
  | 4 => some (Except.ok ProcessStatus.Sleep)
  | _ => none

/-- The fields of the per-cycle clap_process payload that the model observes
(process.rs lines 259 to 274): the steady-time counter, the effective frame count, and
whether the transport pointer is null. -/
structure clap_process where
  steady_time : Int
  frames_count : Nat
  transport_null : Bool
deriving DecidableEq

/-- Effective frame count resolution performed by StartedPluginAudioProcessor::process
(process.rs lines 253 to 257): minimum when both buffers report a count, the present one
when only one does, zero when neither does. -/
def resolveFramesCount : Option Nat → Option Nat → Nat
  | some a, some b => min a b
  | some a, none => a
  | none, some a => a
  | none, none => 0

/-- Steady-time encoding performed by StartedPluginAudioProcessor::process
(process.rs lines 260 to 263): None maps to -1, a supplied unsigned value saturates to
the signed 64-bit maximum. -/
def encodeSteadyTime : Option Nat → Int
  | none => -1
  | some v => Int.ofNat (min v (2 ^ 63 - 1))

/-- The Started view of an activated processor (process.rs lines 237 to 240). The inner
function table stands for the held instance, whose pointer the source guarantees valid by
construction. -/
structure StartedPluginAudioProcessor where
  inner : RawPlugin
deriving DecidableEq

/-- The Stopped view of an activated processor (process.rs lines 369 to 372). -/
structure StoppedPluginAudioProcessor where
  inner : RawPlugin
deriving DecidableEq

/-- ProcessingStartError (process.rs lines 440 to 442): a failed start retains ownership
of the stopped processor. -/
structure ProcessingStartError where
  processor : StoppedPluginAudioProcessor
deriving DecidableEq

/-- StoppedPluginAudioProcessor::start_processing (process.rs lines 390 to 401). -/
def StoppedPluginAudioProcessor.start_processing (s : StoppedPluginAudioProcessor) :
    Except ProcessingStartError StartedPluginAudioProcessor × List FCall :=
  match s.inner.startProcessingCall with
  | (Except.ok _, tr) => (Except.ok ⟨s.inner⟩, tr)
  | (Except.error _, tr) => (Except.error ⟨s⟩, tr)

/-- StartedPluginAudioProcessor::stop_processing (process.rs lines 296 to 305). -/
def StartedPluginAudioProcessor.stop_processing (s : StartedPluginAudioProcessor) :
    StoppedPluginAudioProcessor × List FCall :=
  (⟨s.inner⟩, s.inner.stopProcessingCall)

/-- StartedPluginAudioProcessor::process (process.rs lines 243 to 287). The audio buffer
views are represented by their optional frame counts, and the transport by its presence.
The result carries the constructed clap_process payload so that it can be observed. -/
def StartedPluginAudioProcessor.process (s : StartedPluginAudioProcessor)
    (audio_inputs_frames audio_outputs_frames : Option Nat)
    (steady_time : Option Nat) (transport : Bool) :
    Except HostError ProcessStatus × clap_process × List FCall :=
  let proc : clap_process :=
    { steady_time := encodeSteadyTime steady_time
      frames_count := resolveFramesCount audio_inputs_frames audio_outputs_frames
      transport_null := !transport }
  match s.inner.process with
  | none => (Except.error HostError.NullProcessFunction, proc, [])
  | some raw =>
      match ProcessStatus.from_raw raw with
      | some (Except.ok st) => (Except.ok st, proc, [FCall.process])
      | some (Except.error _) => (Except.error HostError.ProcessingFailed, proc, [FCall.process])
      | none => (Except.error HostError.ProcessingFailed, proc, [FCall.process])

/-- The audio processor state machine (process.rs lines 21 to 25). -/
inductive PluginAudioProcessor
  | Started (s : StartedPluginAudioProcessor)
  | Stopped (s : StoppedPluginAudioProcessor)
  | Poisoned
deriving DecidableEq

/-- PluginAudioProcessor::as_started (process.rs lines 29 to 35); none models the
unreachable panic on Poisoned. -/
def PluginAudioProcessor.as_started :
    PluginAudioProcessor → Option (Except HostError StartedPluginAudioProcessor)
  | .Started s => some (Except.ok s)
  | .Stopped _ => some (Except.error HostError.ProcessingStopped)
  | .Poisoned => none

/-- PluginAudioProcessor::as_started_mut (process.rs lines 38 to 44). -/
def PluginAudioProcessor.as_started_mut :
    PluginAudioProcessor → Option (Except HostError StartedPluginAudioProcessor)
  | .Started s => some (Except.ok s)
  | .Stopped _ => some (Except.error HostError.ProcessingStopped)
  | .Poisoned => none

/-- PluginAudioProcessor::as_stopped (process.rs lines 47 to 53). -/
def PluginAudioProcessor.as_stopped :
    PluginAudioProcessor → Option (Except HostError StoppedPluginAudioProcessor)
  | .Stopped s => some (Except.ok s)
  | .Started _ => some (Except.error HostError.ProcessingStarted)
  | .Poisoned => none

/-- PluginAudioProcessor::as_stopped_mut (process.rs lines 56 to 62). -/
def PluginAudioProcessor.as_stopped_mut :
    PluginAudioProcessor → Option (Except HostError StoppedPluginAudioProcessor)
  | .Stopped s => some (Except.ok s)
  | .Started _ => some (Except.error HostError.ProcessingStarted)
  | .Poisoned => none

/-- PluginAudioProcessor::shared_handler (process.rs lines 65 to 71); the facet value
itself lives in the host wrapper outside the provided sources and is abstracted to Unit;
none models the explicit panic on Poisoned. -/
def PluginAudioProcessor.shared_handler : PluginAudioProcessor → Option Unit
  | .Poisoned => none
  | .Started _ => some ()
  | .Stopped _ => some ()

/-- PluginAudioProcessor::handler (process.rs lines 74 to 80); facet abstracted to Unit,
none models the explicit panic on Poisoned. -/
def PluginAudioProcessor.handler : PluginAudioProcessor → Option Unit
  | .Poisoned => none
  | .Started _ => some ()
  | .Stopped _ => some ()

/-- PluginAudioProcessor::handler_mut (process.rs lines 83 to 89). -/
def PluginAudioProcessor.handler_mut : PluginAudioProcessor → Option Unit
  | .Poisoned => none
  | .Started _ => some ()
  | .Stopped _ => some ()

/-- PluginAudioProcessor::is_started (process.rs lines 91 to 96). Note that the source
returns false for both Stopped and Poisoned, and panics on neither, so this query is
total: it never returns none. -/
def PluginAudioProcessor.is_started : PluginAudioProcessor → Option Bool
  | .Stopped _ => some false
  | .Poisoned => some false
  | .Started _ => some true

/-- PluginAudioProcessor::plugin_handle (process.rs lines 99 to 105); the handle wraps
the raw instance, here its function table; none models the explicit panic on Poisoned. -/
def PluginAudioProcessor.plugin_handle : PluginAudioProcessor → Option RawPlugin
  | .Poisoned => none
  | .Started s => some s.inner
  | .Stopped s => some s.inner

/-- PluginAudioProcessor::shared_plugin_handle (process.rs lines 108 to 114). -/
def PluginAudioProcessor.shared_plugin_handle : PluginAudioProcessor → Option RawPlugin
  | .Poisoned => none
  | .Started s => some s.inner
  | .Stopped s => some s.inner

/-- PluginAudioProcessor::start_processing (process.rs lines 134 to 157): the strict
transition. The current value is swapped for Poisoned in the source; the model returns
the Result, the value written back, and the foreign-call trace, with none modelling the
unreachable panic when invoked on an already Poisoned value. -/
def PluginAudioProcessor.start_processing :
    PluginAudioProcessor → Option (Except HostError Unit × PluginAudioProcessor × List FCall)
  | .Poisoned => none
  | .Started s => some (Except.error HostError.ProcessingStarted, .Started s, [])
  | .Stopped s =>
      match s.start_processing with
      | (Except.ok st, tr) => some (Except.ok (), .Started st, tr)
      | (Except.error e, tr) =>
          some (Except.error HostError.StartProcessingFailed, .Stopped e.processor, tr)

/-- PluginAudioProcessor::ensure_processing_started (process.rs lines 125 to 132): the
idempotent variant, a no-op success on Started, and otherwise deferring to the strict
transition. -/
def PluginAudioProcessor.ensure_processing_started (p : PluginAudioProcessor) :
    Option (Except HostError Unit × PluginAudioProcessor × List FCall) :=
  match p with
  | .Started s => some (Except.ok (), .Started s, [])
  | _ => p.start_processing

/-- PluginAudioProcessor::ensure_processing_stopped (process.rs lines 159 to 176): never
fails; Stopped is left in place, Started is stopped through the foreign call. -/
def PluginAudioProcessor.ensure_processing_stopped :
    PluginAudioProcessor → Option (PluginAudioProcessor × List FCall)
  | .Poisoned => none
  | .Stopped s => some (.Stopped s, [])
  | .Started s =>
      let r := s.stop_processing
      some (.Stopped r.1, r.2)

/-- PluginAudioProcessor::stop_processing (process.rs lines 178 to 195): the strict
transition, an error on an already Stopped value. -/
def PluginAudioProcessor.stop_processing :
    PluginAudioProcessor → Option (Except HostError Unit × PluginAudioProcessor × List FCall)
  | .Poisoned => none
  | .Stopped s => some (Except.error HostError.ProcessingStopped, .Stopped s, [])
  | .Started s =>
      let r := s.stop_processing
      some (Except.ok (), .Stopped r.1, r.2)

/-- Processing through the state machine: obtain the Started view through as_started_mut
(the only route to the process operation) and process through it. The processor itself is
returned unchanged, as process takes the Started view by reference. -/
def PluginAudioProcessor.processViaStarted (p : PluginAudioProcessor)
    (audio_inputs_frames audio_outputs_frames : Option Nat)
    (steady_time : Option Nat) (transport : Bool) :
    Option (Except HostError ProcessStatus × PluginAudioProcessor × List FCall) :=
  match p.as_started_mut with
  | none => none
  | some (Except.error e) => some (Except.error e, p, [])
  | some (Except.ok s) =>
      let r := s.process audio_inputs_frames audio_outputs_frames steady_time transport
      some (r.1, p, r.2.2)

/-- Plugin-facing error taxonomy (wrapper.rs lines 293 to 335); the payloads of the
variants (names, severities, inner errors) are not observed by the claims and are
omitted. -/
inductive PluginWrapperError
  | NullPluginInstance
  | AlreadyDestroyed
  | NulPtr
  | InvalidParameter
  | UninitializedPlugin
  | PluginCalledDuringInitialization
  | Destroying
  | InitializationAlreadyFailed
  | AlreadyInitialized
  | ActivatedPlugin
  | DeactivatedPlugin
  | DeactivationRequiredForFunction
  | Panic
  | Plugin
  | StringEncoding
  | InvalidCString
  | Any
deriving DecidableEq

/-- The plugin-side wrapper (wrapper.rs lines 42 to 47): the state observed by the claims
is whether the audio processor facet cell is occupied; the facet contents are abstracted. -/
structure PluginWrapper where
  audio_processor : Option Unit
deriving DecidableEq

/-- The opaque per-instance plugin data block pointed to by clap_plugin.plugin_data.
Modelled from the spec: PluginBoxInner and its wrapper accessor are defined outside the
provided sources; the accessor yields the PluginWrapper, or a dispatch error when the
instance is mid-initialization or mid-destruction. -/
structure PluginBoxInner where
  wrapper : Except PluginWrapperError PluginWrapper

/-- The raw clap_plugin struct as seen by the plugin-side dispatch: only its plugin_data
pointer is observed, with none modelling a null pointer. A null clap_plugin pointer
itself is modelled by an Option around this structure. -/
structure clap_plugin where
  plugin_data : Option PluginBoxInner

/-- PluginWrapper::from_raw (wrapper.rs lines 250 to 258): null-checks the raw pointer
and its embedded plugin_data pointer, then goes through the wrapper accessor. -/
def PluginWrapper.from_raw (raw : Option clap_plugin) :
    Except PluginWrapperError PluginWrapper :=
  match raw with
  | none => Except.error PluginWrapperError.NullPluginInstance
  | some p =>
      match p.plugin_data with
      | none => Except.error PluginWrapperError.AlreadyDestroyed
      | some d => d.wrapper

/-- The behaviour of a handler closure passed to the dispatch entry point: it may panic,
fail with a domain error, or succeed with a value. -/
inductive HandlerOutcome (T : Type)
  | panics
  | fails (e : PluginWrapperError)
  | succeeds (v : T)

/-- PluginWrapper::handle_panic (wrapper.rs lines 275 to 281): runs the handler under
catch_unwind, converting a panic into the Panic error and forwarding the handler result
otherwise. -/
def PluginWrapper.handle_panic {T : Type} (handler : PluginWrapper → HandlerOutcome T)
    (p : PluginWrapper) : Except PluginWrapperError T :=
  match handler p with
  | HandlerOutcome.panics => Except.error PluginWrapperError.Panic
  | HandlerOutcome.fails e => Except.error e
  | HandlerOutcome.succeeds v => Except.ok v

/-- PluginWrapper::handle (wrapper.rs lines 215 to 227): the single dispatch entry point.
The first component is the returned Option; the second records the error passed to the
logging call on the failure path, with none meaning nothing was logged. -/
def PluginWrapper.handle {T : Type} (plugin : Option clap_plugin)
    (handler : PluginWrapper → HandlerOutcome T) : Option T × Option PluginWrapperError :=
  match (PluginWrapper.from_raw plugin).bind (PluginWrapper.handle_panic handler) with
  | Except.ok v => (some v, none)
  | Except.error e => (none, some e)

/-- Modelled from the spec: the host-side HostWrapper (outside the provided sources)
stores the ProcessingThread facet; the instance is active exactly while the facet
exists. -/
structure HostWrapper where
  active : Bool
deriving DecidableEq

/-- Modelled from the spec: HostWrapper::setup_audio_processor installs the freshly
constructed ProcessingThread facet; activation requires the instance to not already be
active. -/
def HostWrapper.setup_audio_processor (w : HostWrapper) : Except HostError HostWrapper :=
  if w.active then Except.error HostError.AlreadyActivatedPlugin
  else Except.ok { active := true }

/-- Modelled from the spec: HostWrapper::deactivate removes the ProcessingThread facet,
passing it to the teardown closure (recorded as the facetTeardown event) and returning
the result of the closure, and fails with DeactivatedPlugin when no facet exists. -/
def HostWrapper.deactivate {T : Type} (w : HostWrapper) (t : T) :
    HostWrapper × Except HostError T × List FCall :=
  if w.active then ({ active := false }, Except.ok t, [FCall.facetTeardown])
  else (w, Except.error HostError.DeactivatedPlugin, [])

/-- PluginInstanceInner (instance.rs lines 9 to 14): the host wrapper together with the
plugin function-table pointer, none modelling the null pointer left by a failed
instantiation. -/
structure PluginInstanceInner where
  host_wrapper : HostWrapper
  plugin_ptr : Option RawPlugin
deriving DecidableEq

/-- PluginInstanceInner::activate (instance.rs lines 82 to 120): checks the foreign
activate entry, installs the ProcessingThread facet, then makes the foreign call; on
reported failure the facet is torn down through a no-op teardown closure and
ActivationFailed is returned. The outer none models the dereference of a null instance
pointer, which the public API makes unreachable. -/
def PluginInstanceInner.activate (inst : PluginInstanceInner) :
    Option (Except HostError Unit × PluginInstanceInner × List FCall) :=
  match inst.plugin_ptr with
  | none => none
  | some p =>
      match p.activate with
      | none => some (Except.error HostError.NullActivateFunction, inst, [])
      | some success =>
          match inst.host_wrapper.setup_audio_processor with
          | Except.error e => some (Except.error e, inst, [])
          | Except.ok w1 =>
              if success then
                some (Except.ok (), { inst with host_wrapper := w1 }, [FCall.activate])
              else
                let r := HostWrapper.deactivate w1 ()
                some (Except.error HostError.ActivationFailed,
                  { inst with host_wrapper := r.1 }, FCall.activate :: r.2.2)

/-- PluginInstanceInner::deactivate_with (instance.rs lines 123 to 141): fails with
DeactivatedPlugin when not active, before touching the instance pointer; otherwise calls
the foreign deactivate entry when present, then tears down the facet through the supplied
closure, whose result value is t. -/
def PluginInstanceInner.deactivate_with {T : Type} (inst : PluginInstanceInner) (t : T) :
    Option (Except HostError T × PluginInstanceInner × List FCall) :=
  if !inst.host_wrapper.active then
    some (Except.error HostError.DeactivatedPlugin, inst, [])
  else
    match inst.plugin_ptr with
    | none => none
    | some p =>
        let tr1 := if p.deactivate then [FCall.deactivate] else []
        let r := inst.host_wrapper.deactivate t
        some (r.2.1, { inst with host_wrapper := r.1 }, tr1 ++ r.2.2)

/-- The Drop implementation for PluginInstanceInner (instance.rs lines 177 to 199): a
no-op when the instance pointer is null, otherwise an automatic deactivation when still
active followed by the foreign destroy call when present. The result is the trace of
calls made during destruction. -/
def PluginInstanceInner.drop (inst : PluginInstanceInner) : List FCall :=
  match inst.plugin_ptr with
  | none => []
  | some p =>
      (if inst.host_wrapper.active then
        match inst.deactivate_with () with
        | some r => r.2.2
        | none => []
      else []) ++
      (if p.destroy then [FCall.destroy] else [])

/-! Theorems. -/

/-- A concrete function table with every entry present and succeeding, used by the
witness theorems. -/
def samplePlugin : RawPlugin :=
  { activate := some true
    deactivate := true
    start_processing := some true
    stop_processing := true
    process := some 1
    destroy := true }

/-- The clap_process payload constructed by process is the same in every branch: the
encoded steady time, the resolved frame count, and the transport presence. -/
theorem process_payload_eq (s : StartedPluginAudioProcessor)
    (inF outF st : Option Nat) (tp : Bool) :
    (s.process inF outF st tp).2.1 =
      { steady_time := encodeSteadyTime st
        frames_count := resolveFramesCount inF outF
        transport_null := !tp } := by
  unfold StartedPluginAudioProcessor.process
  cases h : s.inner.process with
  | none => simp
  | some raw =>
      cases hr : ProcessStatus.from_raw raw with
      | none => simp [hr]
      | some r => cases r <;> simp [hr]

/-- C4: for every call to process, the effective frame count placed in the payload is the
minimum of the two frame counts when both buffers report one, the present one when
exactly one does, and zero when neither does. -/
theorem process_frames_count_resolution (s : StartedPluginAudioProcessor)
    (st : Option Nat) (tp : Bool) :
    (∀ a b, (s.process (some a) (some b) st tp).2.1.frames_count = min a b) ∧
    (∀ a, (s.process (some a) none st tp).2.1.frames_count = a) ∧
    (∀ a, (s.process none (some a) st tp).2.1.frames_count = a) ∧
    (s.process none none st tp).2.1.frames_count = 0 := by
  refine ⟨fun a b => ?_, fun a => ?_, fun a => ?_, ?_⟩ <;>
    simp [process_payload_eq, resolveFramesCount]

/-- C5: the steady-time encoding in the process payload maps None to the sentinel -1 and
every supplied value v to the non-negative value v saturated to the signed 64-bit
maximum, which therefore never collides with the sentinel. -/
theorem process_steady_time_encoding (s : StartedPluginAudioProcessor)
    (inF outF : Option Nat) (tp : Bool) :
    ((s.process inF outF none tp).2.1.steady_time = -1) ∧
    (∀ v, (s.process inF outF (some v) tp).2.1.steady_time =
        Int.ofNat (min v (2 ^ 63 - 1))) ∧
    (∀ v, 0 ≤ (s.process inF outF (some v) tp).2.1.steady_time) ∧
    (∀ v, (s.process inF outF (some v) tp).2.1.steady_time ≠
        (s.process inF outF none tp).2.1.steady_time) := by
  refine ⟨?_, fun v => ?_, fun v => ?_, fun v => ?_⟩
  · simp only [process_payload_eq, encodeSteadyTime]
  · simp only [process_payload_eq, encodeSteadyTime]
  · simp only [process_payload_eq, encodeSteadyTime]
    exact Int.ofNat_nonneg _
  · simp only [process_payload_eq, encodeSteadyTime]
    intro h
    rw [Int.ofNat_eq_coe] at h
    omega

/-- C3: for a processor in the Stopped state, attempting to process through the Started
view fails with ProcessingStopped, leaves the processor Stopped, and makes no foreign
call; both routes to the Started view return the ProcessingStopped error. -/
theorem process_on_stopped_fails (s : StoppedPluginAudioProcessor)
    (inF outF st : Option Nat) (tp : Bool) :
    (PluginAudioProcessor.Stopped s).processViaStarted inF outF st tp =
      some (Except.error HostError.ProcessingStopped, .Stopped s, []) ∧
    (PluginAudioProcessor.Stopped s).as_started_mut =
      some (Except.error HostError.ProcessingStopped) ∧
    (PluginAudioProcessor.Stopped s).as_started =
      some (Except.error HostError.ProcessingStopped) := by
  exact ⟨rfl, rfl, rfl⟩

/-- C9: the strict start_processing entry point on an already Started processor reports
ProcessingStarted and leaves the processor Started, while ensure_processing_started on an
already Started processor is a no-op success; in both cases the trace is empty, so the
foreign start_processing entry is not invoked again. -/
theorem start_processing_on_started (s : StartedPluginAudioProcessor) :
    (PluginAudioProcessor.Started s).start_processing =
      some (Except.error HostError.ProcessingStarted, .Started s, []) ∧
    (PluginAudioProcessor.Started s).ensure_processing_started =
      some (Except.ok (), .Started s, []) := by
  exact ⟨rfl, rfl⟩

/-- C10: the strict stop_processing entry point on an already Stopped processor fails
with ProcessingStopped, leaves the processor Stopped, and makes no foreign call, while
ensure_processing_stopped never fails: from Stopped it is a no-op with no foreign call,
and from Started it returns a Stopped processor, invoking the foreign stop_processing
entry exactly as the instance-level stop call does. -/
theorem stop_processing_on_stopped (s : StoppedPluginAudioProcessor)
    (st : StartedPluginAudioProcessor) :
    (PluginAudioProcessor.Stopped s).stop_processing =
      some (Except.error HostError.ProcessingStopped, .Stopped s, []) ∧
    (PluginAudioProcessor.Stopped s).ensure_processing_stopped =
      some (.Stopped s, []) ∧
    (PluginAudioProcessor.Started st).ensure_processing_stopped =
      some (.Stopped ⟨st.inner⟩, st.inner.stopProcessingCall) := by
  exact ⟨rfl, rfl, rfl⟩

/-- Helper: the strict start transition on a Stopped processor always returns normally,
and the value written back is never Poisoned, whichever way the foreign call goes. -/
theorem start_processing_stopped_not_poisoned (s : StoppedPluginAudioProcessor) :
    ∃ r, (PluginAudioProcessor.Stopped s).start_processing = some r ∧
      r.2.1 ≠ PluginAudioProcessor.Poisoned := by
  cases h : s.start_processing with
  | mk res tr =>
    cases res with
    | ok st =>
        refine ⟨(Except.ok (), .Started st, tr), ?_, ?_⟩
        · simp [PluginAudioProcessor.start_processing, h]
        · simp
    | error e =>
        refine ⟨(Except.error HostError.StartProcessingFailed, .Stopped e.processor, tr), ?_, ?_⟩
        · simp [PluginAudioProcessor.start_processing, h]
        · simp

/-- Helper: on a Stopped processor the idempotent start variant defers to the strict
transition. -/
theorem ensure_processing_started_stopped_eq (s : StoppedPluginAudioProcessor) :
    (PluginAudioProcessor.Stopped s).ensure_processing_started =
      (PluginAudioProcessor.Stopped s).start_processing := rfl

/-- C1 (amended): every state-transition operation invoked on a Started or Stopped
processor returns normally with the processor again Started or Stopped, and every
modelled accessor invoked on a Poisoned value panics, with the single exception of
is_started, which returns false on a Poisoned value instead of panicking. -/
theorem audio_processor_poison_observability :
    (∀ p : PluginAudioProcessor, p ≠ PluginAudioProcessor.Poisoned →
      (∃ r, p.start_processing = some r ∧ r.2.1 ≠ PluginAudioProcessor.Poisoned) ∧
      (∃ r, p.stop_processing = some r ∧ r.2.1 ≠ PluginAudioProcessor.Poisoned) ∧
      (∃ r, p.ensure_processing_started = some r ∧ r.2.1 ≠ PluginAudioProcessor.Poisoned) ∧
      (∃ r, p.ensure_processing_stopped = some r ∧ r.1 ≠ PluginAudioProcessor.Poisoned)) ∧
    (PluginAudioProcessor.as_started .Poisoned = none ∧
      PluginAudioProcessor.as_started_mut .Poisoned = none ∧
      PluginAudioProcessor.as_stopped .Poisoned = none ∧
      PluginAudioProcessor.as_stopped_mut .Poisoned = none ∧
      PluginAudioProcessor.shared_handler .Poisoned = none ∧
      PluginAudioProcessor.handler .Poisoned = none ∧
      PluginAudioProcessor.handler_mut .Poisoned = none ∧
      PluginAudioProcessor.plugin_handle .Poisoned = none ∧
      PluginAudioProcessor.shared_plugin_handle .Poisoned = none) ∧
    PluginAudioProcessor.is_started .Poisoned = some false := by
  refine ⟨fun p hp => ?_, ⟨rfl, rfl, rfl, rfl, rfl, rfl, rfl, rfl, rfl⟩, rfl⟩
  cases p with
  | Poisoned => exact absurd rfl hp
  | Started s =>
      exact ⟨⟨_, rfl, by simp⟩, ⟨_, rfl, by simp⟩, ⟨_, rfl, by simp⟩, ⟨_, rfl, by simp⟩⟩
  | Stopped s =>
      refine ⟨start_processing_stopped_not_poisoned s, ⟨_, rfl, by simp⟩, ?_, ⟨_, rfl, by simp⟩⟩
      rw [ensure_processing_started_stopped_eq]
      exact start_processing_stopped_not_poisoned s

/-- C1 witness: the amended transition property instantiated on a concrete Stopped
processor. -/
theorem audio_processor_poison_observability_witness :
    ∃ r, (PluginAudioProcessor.Stopped ⟨samplePlugin⟩).start_processing = some r ∧
      r.2.1 ≠ PluginAudioProcessor.Poisoned :=
  ((audio_processor_poison_observability.1 (PluginAudioProcessor.Stopped ⟨samplePlugin⟩)
    (by decide)).1)

/-- C1 counterexample: is_started, a query on the processor cited by the claim, observes
a Poisoned value and returns false normally instead of failing with a panic, so not every
accessor and query on a Poisoned value fails loudly. -/
theorem is_started_on_poisoned_returns_false :
    PluginAudioProcessor.is_started PluginAudioProcessor.Poisoned = some false ∧
    PluginAudioProcessor.is_started PluginAudioProcessor.Poisoned ≠ none := by
  exact ⟨rfl, by decide⟩

/-- C2: the dispatch entry point never lets a failure propagate: a null clap_plugin
pointer returns None logging NullPluginInstance before reaching the handler, a null
plugin_data pointer returns None logging AlreadyDestroyed, a panic inside the handler
returns None logging Panic, a domain error returns None logging that error, the call
returns Some exactly when every check passes and the handler succeeds, and every None
return logs an error. -/
theorem plugin_wrapper_handle_dispatch (T : Type) (h : PluginWrapper → HandlerOutcome T) :
    (PluginWrapper.handle none h = (none, some PluginWrapperError.NullPluginInstance)) ∧
    (∀ d : clap_plugin, d.plugin_data = none →
      PluginWrapper.handle (some d) h = (none, some PluginWrapperError.AlreadyDestroyed)) ∧
    (∀ raw w, PluginWrapper.from_raw raw = Except.ok w → h w = HandlerOutcome.panics →
      PluginWrapper.handle raw h = (none, some PluginWrapperError.Panic)) ∧
    (∀ raw w e, PluginWrapper.from_raw raw = Except.ok w → h w = HandlerOutcome.fails e →
      PluginWrapper.handle raw h = (none, some e)) ∧
    (∀ raw v, (PluginWrapper.handle raw h).1 = some v ↔
      ∃ w, PluginWrapper.from_raw raw = Except.ok w ∧ h w = HandlerOutcome.succeeds v) ∧
    (∀ raw, (PluginWrapper.handle raw h).1 = none → (PluginWrapper.handle raw h).2.isSome) := by
  refine ⟨rfl, fun d hd => ?_, fun raw w hfr hh => ?_, fun raw w e hfr hh => ?_,
    fun raw v => ?_, fun raw => ?_⟩
  · cases d with
    | mk pd => cases hd; rfl
  · simp [PluginWrapper.handle, hfr, PluginWrapper.handle_panic, hh, Except.bind]
  · simp [PluginWrapper.handle, hfr, PluginWrapper.handle_panic, hh, Except.bind]
  · cases hfr : PluginWrapper.from_raw raw with
    | error e =>
        simp [PluginWrapper.handle, hfr, Except.bind]
    | ok w =>
        cases hh : h w with
        | panics => simp [PluginWrapper.handle, hfr, PluginWrapper.handle_panic, hh, Except.bind]
        | fails e => simp [PluginWrapper.handle, hfr, PluginWrapper.handle_panic, hh, Except.bind]
        | succeeds u =>
            simp [PluginWrapper.handle, hfr, PluginWrapper.handle_panic, hh, Except.bind]
  · cases hfr : PluginWrapper.from_raw raw with
    | error e => simp [PluginWrapper.handle, hfr, Except.bind]
    | ok w =>
        cases hh : h w <;>
          simp [PluginWrapper.handle, hfr, PluginWrapper.handle_panic, hh, Except.bind]

/-- C2 witness: the dispatch safety checks at concrete inputs, covering the null pointer,
the destroyed instance, a panicking handler, a failing handler, and a succeeding
handler. -/
theorem plugin_wrapper_handle_dispatch_witness :
    (PluginWrapper.handle none (fun _ => HandlerOutcome.succeeds (0 : Nat)) =
      (none, some PluginWrapperError.NullPluginInstance)) ∧
    (PluginWrapper.handle (some ⟨none⟩) (fun _ => HandlerOutcome.succeeds (0 : Nat)) =
      (none, some PluginWrapperError.AlreadyDestroyed)) ∧
    (PluginWrapper.handle (some ⟨some ⟨Except.ok ⟨none⟩⟩⟩)
        (fun _ => (HandlerOutcome.panics : HandlerOutcome Nat)) =
      (none, some PluginWrapperError.Panic)) ∧
    (PluginWrapper.handle (some ⟨some ⟨Except.ok ⟨none⟩⟩⟩)
        (fun _ => (HandlerOutcome.fails PluginWrapperError.Plugin : HandlerOutcome Nat)) =
      (none, some PluginWrapperError.Plugin)) ∧
    (PluginWrapper.handle (some ⟨some ⟨Except.ok ⟨none⟩⟩⟩)
        (fun _ => HandlerOutcome.succeeds (7 : Nat))).1 = some 7 :=
  ⟨(plugin_wrapper_handle_dispatch Nat (fun _ => HandlerOutcome.succeeds 0)).1,
    (plugin_wrapper_handle_dispatch Nat (fun _ => HandlerOutcome.succeeds 0)).2.1 ⟨none⟩ rfl,
    (plugin_wrapper_handle_dispatch Nat (fun _ => HandlerOutcome.panics)).2.2.1
      (some ⟨some ⟨Except.ok ⟨none⟩⟩⟩) ⟨none⟩ rfl rfl,
    (plugin_wrapper_handle_dispatch Nat
        (fun _ => HandlerOutcome.fails PluginWrapperError.Plugin)).2.2.2.1
      (some ⟨some ⟨Except.ok ⟨none⟩⟩⟩) ⟨none⟩ PluginWrapperError.Plugin rfl rfl,
    ((plugin_wrapper_handle_dispatch Nat (fun _ => HandlerOutcome.succeeds 7)).2.2.2.2.1
      (some ⟨some ⟨Except.ok ⟨none⟩⟩⟩) 7).mpr ⟨⟨none⟩, rfl, rfl⟩⟩

/-- C6: when the foreign activate call reports failure on an inactive instance, the
freshly-constructed ProcessingThread facet is torn down immediately (the facetTeardown
event following the activate call) and activate returns ActivationFailed, leaving the
instance exactly as it was, in particular inactive. -/
theorem activate_foreign_failure_teardown (inst : PluginInstanceInner) (p : RawPlugin)
    (hp : inst.plugin_ptr = some p) (ha : p.activate = some false)
    (hi : inst.host_wrapper.active = false) :
    inst.activate = some (Except.error HostError.ActivationFailed, inst,
      [FCall.activate, FCall.facetTeardown]) := by
  obtain ⟨⟨act⟩, ptr⟩ := inst
  simp only at hp hi
  subst hp
  subst hi
  simp [PluginInstanceInner.activate, ha, HostWrapper.setup_audio_processor,
    HostWrapper.deactivate]

/-- C6 witness: a concrete inactive instance whose foreign activate reports failure. -/
theorem activate_foreign_failure_teardown_witness :
    PluginInstanceInner.activate ⟨⟨false⟩, some { samplePlugin with activate := some false }⟩ =
      some (Except.error HostError.ActivationFailed,
        ⟨⟨false⟩, some { samplePlugin with activate := some false }⟩,
        [FCall.activate, FCall.facetTeardown]) :=
  activate_foreign_failure_teardown ⟨⟨false⟩, some { samplePlugin with activate := some false }⟩
    { samplePlugin with activate := some false } rfl rfl rfl

/-- C7: deactivate on a non-active instance fails with DeactivatedPlugin, leaves the
instance unchanged and makes no foreign call; on an active instance it first makes the
foreign deactivate call exactly when the entry is present, then tears down the
ProcessingThread facet, returning the result of the teardown closure. -/
theorem deactivate_with_state_behaviour (T : Type) (inst : PluginInstanceInner) (t : T) :
    (inst.host_wrapper.active = false →
      inst.deactivate_with t = some (Except.error HostError.DeactivatedPlugin, inst, [])) ∧
    (∀ p, inst.host_wrapper.active = true → inst.plugin_ptr = some p →
      inst.deactivate_with t = some (Except.ok t, ⟨⟨false⟩, some p⟩,
        (if p.deactivate then [FCall.deactivate] else []) ++ [FCall.facetTeardown])) := by
  constructor
  · intro hi
    simp [PluginInstanceInner.deactivate_with, hi]
  · intro p hi hp
    obtain ⟨⟨act⟩, ptr⟩ := inst
    simp only at hp hi
    subst hp
    subst hi
    simp [PluginInstanceInner.deactivate_with, HostWrapper.deactivate]

/-- C7 witness: the two behaviours at concrete instances, one never activated and one
active with every foreign entry present. -/
theorem deactivate_with_state_behaviour_witness :
    (PluginInstanceInner.deactivate_with ⟨⟨false⟩, some samplePlugin⟩ (5 : Nat) =
      some (Except.error HostError.DeactivatedPlugin, ⟨⟨false⟩, some samplePlugin⟩, [])) ∧
    (PluginInstanceInner.deactivate_with ⟨⟨true⟩, some samplePlugin⟩ (5 : Nat) =
      some (Except.ok 5, ⟨⟨false⟩, some samplePlugin⟩,
        (if samplePlugin.deactivate then [FCall.deactivate] else []) ++
          [FCall.facetTeardown])) :=
  ⟨(deactivate_with_state_behaviour Nat ⟨⟨false⟩, some samplePlugin⟩ 5).1 rfl,
    (deactivate_with_state_behaviour Nat ⟨⟨true⟩, some samplePlugin⟩ 5).2 samplePlugin rfl rfl⟩

/-- C8: dropping an instance whose creation never completed (null function-table pointer)
makes no foreign call at all; dropping a still-active instance with a destroy entry
performs exactly one deactivation (its foreign call when present, then the facet
teardown) followed by exactly one foreign destroy call, in that order; and destroy is
invoked at most once on every drop. -/
theorem drop_deactivates_then_destroys (inst : PluginInstanceInner) :
    (inst.plugin_ptr = none → PluginInstanceInner.drop inst = []) ∧
    (∀ p, inst.plugin_ptr = some p → inst.host_wrapper.active = true → p.destroy = true →
      PluginInstanceInner.drop inst =
        ((if p.deactivate then [FCall.deactivate] else []) ++ [FCall.facetTeardown]) ++
          [FCall.destroy] ∧
      (PluginInstanceInner.drop inst).count FCall.facetTeardown = 1 ∧
      (PluginInstanceInner.drop inst).count FCall.destroy = 1) ∧
    (PluginInstanceInner.drop inst).count FCall.destroy ≤ 1 := by
  refine ⟨fun hn => ?_, fun p hp hi hd => ?_, ?_⟩
  · simp [PluginInstanceInner.drop, hn]
  · obtain ⟨⟨act⟩, ptr⟩ := inst
    simp only at hp hi
    subst hp
    subst hi
    refine ⟨?_, ?_, ?_⟩ <;>
      cases hde : p.deactivate <;>
        simp [PluginInstanceInner.drop, PluginInstanceInner.deactivate_with,
          HostWrapper.deactivate, hd, hde]
  · obtain ⟨⟨act⟩, ptr⟩ := inst
    cases ptr with
    | none => simp [PluginInstanceInner.drop]
    | some p =>
        cases act <;> cases hde : p.deactivate <;> cases hds : p.destroy <;>
          simp [PluginInstanceInner.drop, PluginInstanceInner.deactivate_with,
            HostWrapper.deactivate, hde, hds]

/-- C8 witness: dropping a concrete active instance with every entry present yields the
foreign deactivate call, the facet teardown, then the single destroy call. -/
theorem drop_deactivates_then_destroys_witness :
    PluginInstanceInner.drop ⟨⟨true⟩, some samplePlugin⟩ =
      ((if samplePlugin.deactivate then [FCall.deactivate] else []) ++ [FCall.facetTeardown]) ++
        [FCall.destroy] ∧
    (PluginInstanceInner.drop ⟨⟨true⟩, some samplePlugin⟩).count FCall.facetTeardown = 1 ∧
    (PluginInstanceInner.drop ⟨⟨true⟩, some samplePlugin⟩).count FCall.destroy = 1 :=
  (drop_deactivates_then_destroys ⟨⟨true⟩, some samplePlugin⟩).2.1 samplePlugin rfl rfl rfl

end Clack
